import Mathlib

/-!
Verification of the site-adapter extraction layer of `crawl.py`
(bouldercenter-crawler): the two vendor adapters (`crawl_boulderado`,
`crawl_webclimber`), the dispatcher (`crawl_site`) and the point builder
(`create_point_message`).

Modelling conventions
- Python strings are handled through `List Char`; `String` appears only at
  the boundary of the embedded functions.
- The network fetch and the BeautifulSoup queries are I/O: each adapter is
  parameterised by a page value recording exactly the query results the
  source code asks for (the text of the elements it `find`s, `none` when
  the element is absent).
- Python exceptions become values of `PyExc`; a fallible function returns
  `Except PyExc _`.  The spec maps these onto its own error taxonomy:
  the dispatcher's explicitly raised `ValueError` is the spec's
  `ConfigurationError`, parse-time exceptions are its `ExtractionError`.
- Python `int(str)` is modelled by `pyIntList`: surrounding whitespace is
  stripped, an optional single sign is accepted, the rest must be decimal
  digits.  (Digit-group underscores of Python 3.6+ are not modelled.)
- Python `//` on `int` is floor division: `Int.fdiv`.
-/

/-- Python `str.split(sep)` / `dict`-comprehension helper: split a list at
every element satisfying `p`, keeping empty segments (as Python's
one-argument `split` does). -/
def splitPred (p : Char → Bool) : List Char → List (List Char)
  | [] => [[]]
  | c :: rest =>
    let r := splitPred p rest
    if p c then [] :: r
    else
      match r with
      | [] => [[c]]
      | g :: gs => (c :: g) :: gs

/-- Python `s.split(sep)` for a one-character separator: empty segments kept. -/
def splitOnChar (sep : Char) (l : List Char) : List (List Char) :=
  splitPred (fun c => c = sep) l

/-- Python `s.split()` (no argument): split on runs of whitespace, dropping
empty segments, so leading and trailing whitespace is ignored. -/
def splitWS (l : List Char) : List (List Char) :=
  (splitPred Char.isWhitespace l).filter (fun g => g ≠ [])

/-- Python `s.strip()`: remove leading and trailing whitespace. -/
def stripChars (l : List Char) : List Char :=
  ((l.dropWhile Char.isWhitespace).reverse.dropWhile Char.isWhitespace).reverse

/-- Value of a string of decimal digits. -/
def digitsToNat (l : List Char) : Nat :=
  l.foldl (fun n c => 10 * n + (c.toNat - 48)) 0

/-- Python `int(s)` on a string: strip whitespace, allow one optional sign,
then require a nonempty run of decimal digits; `none` models the
`ValueError` raised otherwise. -/
def pyIntList (l : List Char) : Option Int :=
  match stripChars l with
  | [] => none
  | c :: rest =>
    if c = '+' then
      if rest ≠ [] ∧ rest.all Char.isDigit then some (Int.ofNat (digitsToNat rest)) else none
    else if c = '-' then
      if rest ≠ [] ∧ rest.all Char.isDigit then some (-(Int.ofNat (digitsToNat rest))) else none
    else
      if (c :: rest).all Char.isDigit then some (Int.ofNat (digitsToNat (c :: rest))) else none

/-- Python exceptions that the crawler code can raise.  All of
`explicitValueError`, `intParseError` and `dictUpdateError` are Python
`ValueError`s; they are kept apart here by provenance (an explicit `raise`
with a message, `int()`, `dict()` on a malformed pair sequence). -/
inductive PyExc where
  /-- `AttributeError`: attribute access on `None` (a `find` that failed). -/
  | attributeError
  /-- `TypeError`: subscripting `None` (e.g. `soup.find(...)["style"]`). -/
  | typeError
  /-- `IndexError`: `[0]` on an empty token list. -/
  | indexError
  /-- `KeyError`: missing dictionary key (no `width` style property). -/
  | keyError
  /-- `ValueError` raised explicitly with a message (the dispatcher). -/
  | explicitValueError (msg : String)
  /-- `ValueError` from `int()` on an unparsable string. -/
  | intParseError
  /-- `ValueError` from `dict()` on a pair that is not length 2. -/
  | dictUpdateError
  /-- `ZeroDivisionError` from `//` with divisor `0`. -/
  | zeroDivisionError
deriving DecidableEq

/-- `CrawlResult` TypedDict of `crawl.py`. -/
structure CrawlResult where
  free : Int
  active : Int
deriving DecidableEq

/-- `SiteConfig` of `crawl.py`: per-site configuration values.  The source
reads `location` by membership test even though the TypedDict does not
declare it; optional entries are `Option`s here. -/
structure SiteConfig where
  token : String
  type : String
  area : Option String
  clientId : Option String
  location : Option String

/-- The query results `crawl_boulderado` extracts from the fetched page.
For each of the two counter classes: `none` means no `div` of that class
exists (`soup.find` returns `None`); `some none` means the `div` exists but
holds no `span`; `some (some t)` means the nested `span` has text `t`. -/
structure BoulderadoPage where
  actDiv : Option (Option String)
  freeDiv : Option (Option String)

/-- The query results `crawl_webclimber` extracts from the fetched page.
`statusText`: text of the first `div.status_text`, `none` when the `div` is
absent.  `barStyle`: `none` when `div.bar` is absent (subscripting `None`
is a `TypeError`), `some none` when it has no `style` attribute
(`KeyError`), `some (some s)` when the attribute value is `s`. -/
structure WebclimberPage where
  statusText : Option String
  barStyle : Option (Option String)

/-- One step of the extraction loop of `crawl_boulderado` (line 24-31):
`soup.find("div", {"class": f"…counter-content"}).find("span").text`,
then `int(...)`.  A missing `div` or a missing `span` is an
`AttributeError`; unparsable text is a `ValueError` from `int()`. -/
def extractCount (divText : Option (Option String)) : Except PyExc Int :=
  match divText with
  | none => .error .attributeError
  | some none => .error .attributeError
  | some (some t) =>
    match pyIntList t.toList with
    | none => .error .intParseError
    | some n => .ok n

/-- `crawl_boulderado` (line 17-33), with the fetch abstracted into the
page argument: extract the `act` counter then the `free` counter and
return them directly. -/
def crawl_boulderado (page : BoulderadoPage) : Except PyExc CrawlResult :=
  match extractCount page.actDiv with
  | .error e => .error e
  | .ok act =>
    match extractCount page.freeDiv with
    | .error e => .error e
    | .ok free => .ok { free := free, active := act }

/-- Line 41-47 of `crawl_webclimber`:
`soup.find("div", {"class":"status_text"}).text.strip().split()[0]`, then
`free_slots = -1; try: free_slots = int(...) except ValueError: pass`.
`[0]` on an empty token list is an `IndexError`; a failed parse is NOT an
error, it leaves the `-1` sentinel in place. -/
def freeSlotsOf (st : String) : Except PyExc Int :=
  match splitWS (stripChars st.toList) with
  | [] => .error .indexError
  | tok :: _ =>
    match pyIntList tok with
    | some n => .ok n
    | none => .ok (-1)

/-- Line 55 of `crawl_webclimber`: `int(style_attrs["width"].strip()[:-1])`
applied to the raw `width` property value: strip whitespace, drop the last
character unconditionally, parse as `int`. -/
def widthValueToInt (w : List Char) : Option Int :=
  pyIntList (stripChars w).dropLast

/-- `dict(x.split(":") for x in style_attr_strs)` (line 54): every segment
must split at `:` into exactly two parts, otherwise `dict()` raises a
`ValueError`; duplicate keys are resolved later-wins (dict insertion). -/
def buildStyleDict : List (List Char) → Option (List (List Char × List Char))
  | [] => some []
  | part :: rest =>
    match splitOnChar ':' part, buildStyleDict rest with
    | [k, v], some d => some ((k, v) :: d)
    | _, _ => none

/-- Dictionary lookup with Python semantics for duplicate insertions: the
last binding of the key wins. -/
def lookupLast (k : List Char) : List (List Char × List Char) → Option (List Char)
  | [] => none
  | p :: rest =>
    match lookupLast k rest with
    | some v => some v
    | none => if p.1 = k then some p.2 else none

/-- Line 53-55 of `crawl_webclimber`: split the `style` attribute at `;`,
build the property dictionary, read `width` (a `KeyError` when absent) and
parse its value via `widthValueToInt` (a `ValueError` when unparsable). -/
def barWidthOf (style : String) : Except PyExc Int :=
  match buildStyleDict (splitOnChar ';' style.toList) with
  | none => .error .dictUpdateError
  | some attrs =>
    match lookupLast "width".toList attrs with
    | none => .error .keyError
    | some w =>
      match widthValueToInt w with
      | none => .error .intParseError
      | some n => .ok n

/-- `crawl_webclimber` (line 35-66), with the fetch abstracted into the
page argument.  Branch A (`free_slots == -1`): assume 100 total slots,
`free = 100 - bar_width`.  Branch B: `total = (free_slots // bar_width) *
100` (Python `//` is floor division, `Int.fdiv`; divisor `0` raises
`ZeroDivisionError`).  Either way `active = total - free`. -/
def crawl_webclimber (page : WebclimberPage) : Except PyExc CrawlResult :=
  match page.statusText with
  | none => .error .attributeError
  | some st =>
    match freeSlotsOf st with
    | .error e => .error e
    | .ok free_slots =>
      match page.barStyle with
      | none => .error .typeError
      | some none => .error .keyError
      | some (some style) =>
        match barWidthOf style with
        | .error e => .error e
        | .ok bar_width =>
          if free_slots = -1 then
            let total : Int := 100
            let free := 100 - bar_width
            .ok { free := free, active := total - free }
          else if bar_width = 0 then
            .error .zeroDivisionError
          else
            let total : Int := free_slots.fdiv bar_width * 100
            .ok { free := free_slots, active := total - free_slots }

/-- `crawl_site` (line 68-75): dispatch on `site_config["type"]`; an
unknown type raises `ValueError` with the f-string message of line 75.
The pages stand for what each adapter would fetch. -/
def crawl_site (site_name : String) (site_config : SiteConfig)
    (bp : BoulderadoPage) (wp : WebclimberPage) : Except PyExc CrawlResult :=
  if site_config.type = "boulderado" then crawl_boulderado bp
  else if site_config.type = "webclimber" then crawl_webclimber wp
  else .error (.explicitValueError
    ("unknown boulder arena type: " ++ site_config.type ++ " for site " ++ site_name ++ "."))

/-- The tag mapping of a point message. -/
structure Tags where
  location : String
  area : Option String
deriving DecidableEq

/-- The InfluxDB point message built by `create_point_message`.  The
`time` field is the wall clock at construction; it is a parameter here. -/
structure MetricPoint where
  measurement : String
  tags : Tags
  time : String
  fields_free : Int
  fields_active : Int
deriving DecidableEq

/-- `create_point_message` (line 78-94): location tag is
`site_config["location"]` when present, else the site name; the `area` tag
is merged in afterwards only when present. -/
def create_point_message (site_name : String) (site_config : SiteConfig)
    (data : CrawlResult) (now : String) : MetricPoint :=
  let location := match site_config.location with
    | some l => l
    | none => site_name
  let message : MetricPoint :=
    { measurement := "boulder_center_utilization"
      tags := { location := location, area := none }
      time := now
      fields_free := data.free
      fields_active := data.active }
  match site_config.area with
  | some a => { message with tags := { message.tags with area := some a } }
  | none => message

instance {ε α : Type} [DecidableEq ε] [DecidableEq α] : DecidableEq (Except ε α) := fun x y =>
  match x, y with
  | .error a, .error b =>
    if h : a = b then .isTrue (by rw [h]) else .isFalse (by intro hc; cases hc; exact h rfl)
  | .error _, .ok _ => .isFalse (by intro hc; cases hc)
  | .ok _, .error _ => .isFalse (by intro hc; cases hc)
  | .ok a, .ok b =>
    if h : a = b then .isTrue (by rw [h]) else .isFalse (by intro hc; cases hc; exact h rfl)

/-! ### Helper lemmas about the Python string primitives -/

lemma ws_false_of_digit {c : Char} (h : c.isDigit = true) : c.isWhitespace = false := by
  cases hb : c.isWhitespace with
  | false => rfl
  | true =>
    exfalso
    simp only [Char.isWhitespace, Bool.or_eq_true, decide_eq_true_eq] at hb
    rcases hb with ((h1 | h1) | h1) | h1 <;> subst h1 <;> exact absurd h (by decide)

lemma digit_ne_plus {c : Char} (h : c.isDigit = true) : c ≠ '+' := by
  intro he; subst he; exact absurd h (by decide)

lemma digit_ne_minus {c : Char} (h : c.isDigit = true) : c ≠ '-' := by
  intro he; subst he; exact absurd h (by decide)

/-- `dropWhile` jumps over a fully-whitespace prefix. -/
lemma dropWhile_ws_append (p l : List Char) (hp : ∀ c ∈ p, c.isWhitespace = true) :
    (p ++ l).dropWhile Char.isWhitespace = l.dropWhile Char.isWhitespace := by
  induction p with
  | nil => rfl
  | cons c cs ih =>
    rw [List.cons_append, List.dropWhile_cons_of_pos (hp c (by simp))]
    exact ih (fun d hd => hp d (by simp [hd]))

/-- `dropWhile Char.isWhitespace` keeps a digit-string intact. -/
lemma dropWhile_ws_all_digits {l : List Char} (h : l.all Char.isDigit = true) :
    l.dropWhile Char.isWhitespace = l := by
  cases l with
  | nil => rfl
  | cons c cs =>
    have hc : c.isDigit = true := by
      simp only [List.all_cons, Bool.and_eq_true] at h
      exact h.1
    exact List.dropWhile_cons_of_neg (by simp [ws_false_of_digit hc])

/-- Stripping a digit-string is a no-op. -/
lemma stripChars_all_digits {l : List Char} (h : l.all Char.isDigit = true) :
    stripChars l = l := by
  unfold stripChars
  rw [dropWhile_ws_all_digits h, dropWhile_ws_all_digits (by rwa [List.all_reverse]),
    List.reverse_reverse]

/-- Python `int()` on a nonempty digit-string yields exactly its decimal
value. -/
lemma pyIntList_all_digits {l : List Char} (hne : l ≠ []) (h : l.all Char.isDigit = true) :
    pyIntList l = some (Int.ofNat (digitsToNat l)) := by
  cases l with
  | nil => exact absurd rfl hne
  | cons c cs =>
    have hc : c.isDigit = true := by
      simp only [List.all_cons, Bool.and_eq_true] at h
      exact h.1
    simp only [pyIntList, stripChars_all_digits h]
    rw [if_neg (by simp [digit_ne_plus hc]), if_neg (by simp [digit_ne_minus hc]), if_pos h]


/-! ### Claim theorems -/

/-- C1: for the webclimber adapter in Branch B (status text parses to
free_slots = 17) with a `width:0%` occupancy bar, the claim demands the
defined result `{free := 17, active := 0}` instead of a runtime fault.
The code, however, evaluates `free_slots // bar_width` with `bar_width =
0` (line 63) and faults with an uncaught `ZeroDivisionError`; it returns
no `CrawlResult` at all.  This theorem evaluates the embedded adapter at
exactly that input. -/
theorem c1_branchB_zero_width_faults :
    crawl_webclimber ⟨some "17 frei", some (some "width:0%")⟩ =
      .error .zeroDivisionError := by decide

/-- C5: the boulderado adapter returns the two markup integers directly
(`active` from `actcounter-content`, `free` from `freecounter-content`),
with no derivation applied. -/
theorem c5_boulderado_direct (page : BoulderadoPage) (ta tf : String) (a f : Int)
    (hact : page.actDiv = some (some ta))
    (hfree : page.freeDiv = some (some tf))
    (hpa : pyIntList ta.toList = some a)
    (hpf : pyIntList tf.toList = some f) :
    crawl_boulderado page = .ok { free := f, active := a } := by
  simp only [crawl_boulderado, extractCount, hact, hfree, hpa, hpf]

/-- Witness for C5: markup texts "12" and "8" give `{active := 12, free := 8}`. -/
theorem c5_boulderado_direct_witness :
    crawl_boulderado ⟨some (some "12"), some (some "8")⟩ =
      .ok { free := 8, active := 12 } :=
  c5_boulderado_direct ⟨some (some "12"), some (some "8")⟩ "12" "8" 12 8
    rfl rfl (by decide) (by decide)

/-- C6: the dispatcher `crawl_site` calls exactly the adapter matching
the configured type, and for every other type string it raises the
`ValueError` of line 75 (the spec's `ConfigurationError`), whose message
names the offending site and type; no site is silently ignored. -/
theorem c6_dispatcher (site_name : String) (cfg : SiteConfig)
    (bp : BoulderadoPage) (wp : WebclimberPage) :
    (cfg.type = "boulderado" → crawl_site site_name cfg bp wp = crawl_boulderado bp)
    ∧ (cfg.type = "webclimber" → crawl_site site_name cfg bp wp = crawl_webclimber wp)
    ∧ (cfg.type ≠ "boulderado" → cfg.type ≠ "webclimber" →
        crawl_site site_name cfg bp wp = .error (.explicitValueError
          ("unknown boulder arena type: " ++ cfg.type ++ " for site " ++ site_name ++ "."))) := by
  refine ⟨fun h => ?_, fun h => ?_, fun h1 h2 => ?_⟩
  · unfold crawl_site
    rw [if_pos h]
  · unfold crawl_site
    rw [h, if_neg (by decide), if_pos rfl]
  · unfold crawl_site
    rw [if_neg h1, if_neg h2]

/-- Witness for C6: one dispatch to each adapter and one unknown type. -/
theorem c6_dispatcher_witness :
    crawl_site "gymA" ⟨"t", "boulderado", none, none, none⟩
        ⟨some (some "12"), some (some "8")⟩ ⟨none, none⟩
      = crawl_boulderado ⟨some (some "12"), some (some "8")⟩
    ∧ crawl_site "gymB" ⟨"t", "webclimber", none, none, none⟩
        ⟨none, none⟩ ⟨some "n/a", some (some "width:35%")⟩
      = crawl_webclimber ⟨some "n/a", some (some "width:35%")⟩
    ∧ crawl_site "gymC" ⟨"t", "kletterhalle", none, none, none⟩ ⟨none, none⟩ ⟨none, none⟩
      = .error (.explicitValueError "unknown boulder arena type: kletterhalle for site gymC.") :=
  ⟨(c6_dispatcher "gymA" ⟨"t", "boulderado", none, none, none⟩
      ⟨some (some "12"), some (some "8")⟩ ⟨none, none⟩).1 rfl,
   (c6_dispatcher "gymB" ⟨"t", "webclimber", none, none, none⟩
      ⟨none, none⟩ ⟨some "n/a", some (some "width:35%")⟩).2.1 rfl,
   (c6_dispatcher "gymC" ⟨"t", "kletterhalle", none, none, none⟩
      ⟨none, none⟩ ⟨none, none⟩).2.2 (by decide) (by decide)⟩

/-- C8: the point builder tags the point with `location` when configured
and the site name otherwise, carries the `area` tag exactly when one is
configured, uses the constant measurement name, and copies the crawl
result into the fields. -/
theorem c8_point_builder (site_name : String) (cfg : SiteConfig)
    (data : CrawlResult) (now : String) :
    (create_point_message site_name cfg data now).measurement = "boulder_center_utilization"
    ∧ (create_point_message site_name cfg data now).tags.location = cfg.location.getD site_name
    ∧ (create_point_message site_name cfg data now).tags.area = cfg.area
    ∧ (create_point_message site_name cfg data now).fields_free = data.free
    ∧ (create_point_message site_name cfg data now).fields_active = data.active := by
  cases hl : cfg.location <;> cases ha : cfg.area <;>
    simp [create_point_message, hl, ha]

/-- C3: webclimber Branch B — when the status text's first token parses to
`free_slots` (the adapter's Branch B condition `free_slots ≠ -1` holding)
and the bar width parses to a nonzero `occupied_pct`, the result is
`free = free_slots` and `active = total - free_slots` with
`total = (free_slots // occupied_pct) * 100` in Python floor division. -/
theorem c3_branchB_formula (wp : WebclimberPage) (st style : String)
    (tok : List Char) (rest : List (List Char)) (fs bw : Int)
    (hst : wp.statusText = some st)
    (htok : splitWS (stripChars st.toList) = tok :: rest)
    (hparse : pyIntList tok = some fs)
    (hB : fs ≠ -1)
    (hstyle : wp.barStyle = some (some style))
    (hbw : barWidthOf style = .ok bw)
    (hnz : bw ≠ 0) :
    crawl_webclimber wp = .ok { free := fs, active := fs.fdiv bw * 100 - fs } := by
  have hfs : freeSlotsOf st = .ok fs := by
    simp only [freeSlotsOf, htok, hparse]
  simp only [crawl_webclimber, hst, hfs, hstyle, hbw]
  rw [if_neg hB, if_neg hnz]

/-- Witness for C3: status text "40 frei" and bar `width:40%` give
`{free := 40, active := 60}` (total 100). -/
theorem c3_branchB_formula_witness :
    crawl_webclimber ⟨some "40 frei", some (some "width:40%")⟩ =
      .ok { free := 40, active := 60 } := by
  have h := c3_branchB_formula ⟨some "40 frei", some (some "width:40%")⟩
    "40 frei" "width:40%" "40".toList ["frei".toList] 40 40
    rfl (by decide) (by decide) (by decide) rfl (by decide) (by decide)
  simpa using h

/-- C4: webclimber Branch A — when the status text's first token does not
parse as an integer (no error: the sentinel path is taken) and the bar
width parses to `occupied_pct`, the adapter assumes 100 total slots and
returns `free = 100 - occupied_pct`, `active = occupied_pct`. -/
theorem c4_branchA_formula (wp : WebclimberPage) (st style : String)
    (tok : List Char) (rest : List (List Char)) (bw : Int)
    (hst : wp.statusText = some st)
    (htok : splitWS (stripChars st.toList) = tok :: rest)
    (hparse : pyIntList tok = none)
    (hstyle : wp.barStyle = some (some style))
    (hbw : barWidthOf style = .ok bw) :
    crawl_webclimber wp = .ok { free := 100 - bw, active := bw } := by
  have hfs : freeSlotsOf st = .ok (-1) := by
    simp only [freeSlotsOf, htok, hparse]
  simp only [crawl_webclimber, hst, hfs, hstyle, hbw]
  have harith : (100 : Int) - (100 - bw) = bw := by omega
  simp only [if_true, harith]

/-- Witness for C4: unparsable status text and bar `width:35%` give
`{free := 65, active := 35}`. -/
theorem c4_branchA_formula_witness :
    crawl_webclimber ⟨some "n/a", some (some "width:35%")⟩ =
      .ok { free := 65, active := 35 } := by
  have h := c4_branchA_formula ⟨some "n/a", some (some "width:35%")⟩
    "n/a" "width:35%" "n/a".toList [] 35
    rfl (by decide) (by decide) rfl (by decide)
  simpa using h

/-- C7: the boulderado adapter errors (the spec's `ExtractionError`) and
returns no partial result whenever either counter `div` is missing or
either counter text fails integer parsing. -/
theorem c7_boulderado_errors (page : BoulderadoPage)
    (h : page.actDiv = none ∨ page.freeDiv = none
      ∨ (∃ t, page.actDiv = some (some t) ∧ pyIntList t.toList = none)
      ∨ (∃ t, page.freeDiv = some (some t) ∧ pyIntList t.toList = none)) :
    ∃ e, crawl_boulderado page = .error e := by
  cases hact : extractCount page.actDiv with
  | error e => exact ⟨e, by simp only [crawl_boulderado, hact]⟩
  | ok a =>
    cases hfree : extractCount page.freeDiv with
    | error e => exact ⟨e, by simp only [crawl_boulderado, hact, hfree]⟩
    | ok f =>
      exfalso
      rcases h with h1 | h1 | ⟨t, ht, hp⟩ | ⟨t, ht, hp⟩
      · rw [h1] at hact
        simp [extractCount] at hact
      · rw [h1] at hfree
        simp [extractCount] at hfree
      · rw [ht] at hact
        have hp2 : pyIntList t.data = none := hp
        simp [extractCount, hp, hp2] at hact
      · rw [ht] at hfree
        have hp2 : pyIntList t.data = none := hp
        simp [extractCount, hp, hp2] at hfree

/-- Witness for C7: a page without the `actcounter-content` element errors. -/
theorem c7_boulderado_errors_witness :
    ∃ e, crawl_boulderado ⟨none, some (some "8")⟩ = .error e :=
  c7_boulderado_errors ⟨none, some (some "8")⟩ (Or.inl rfl)

/-- Counterexample for C9: the claim also asserts that no result of the
webclimber adapter ever has `free = -1`, but Branch A with a `width:101%`
bar returns exactly `free = 100 - 101 = -1`. -/
theorem c9_sentinel_counterexample :
    crawl_webclimber ⟨some "klettern", some (some "width:101%")⟩ =
      .ok { free := -1, active := 101 } := by decide

/-- C9 (amended): a status text whose first token is the literal "-1"
parses to the internal unknown-sentinel, so Branch A is taken as if the
number were absent and the output is `{free := 100 - occupied_pct,
active := occupied_pct}`; and no result of this adapter has `free = -1`
PROVIDED the parsed bar width is at most 100 (the claim is false for a
101% bar, see the counterexample). -/
theorem c9_sentinel_amended :
    (∀ (wp : WebclimberPage) (st style : String) (rest : List (List Char)) (bw : Int),
        wp.statusText = some st →
        splitWS (stripChars st.toList) = "-1".toList :: rest →
        wp.barStyle = some (some style) →
        barWidthOf style = .ok bw →
        crawl_webclimber wp = .ok { free := 100 - bw, active := bw })
    ∧ (∀ (wp : WebclimberPage) (r : CrawlResult) (st style : String) (bw : Int),
        wp.statusText = some st →
        wp.barStyle = some (some style) →
        barWidthOf style = .ok bw →
        bw ≤ 100 →
        crawl_webclimber wp = .ok r → r.free ≠ -1) := by
  constructor
  · intro wp st style rest bw hst htok hstyle hbw
    have hfs : freeSlotsOf st = .ok (-1) := by
      simp only [freeSlotsOf, htok]
      decide
    simp only [crawl_webclimber, hst, hfs, hstyle, hbw]
    have harith : (100 : Int) - (100 - bw) = bw := by omega
    simp only [if_true, harith]
  · intro wp r st style bw hst hstyle hbw hle hok
    simp only [crawl_webclimber, hst, hstyle, hbw] at hok
    cases hfs : freeSlotsOf st with
    | error e =>
      rw [hfs] at hok
      exact Except.noConfusion hok
    | ok fs =>
      simp only [hfs] at hok
      by_cases h1 : fs = -1
      · rw [if_pos h1] at hok
        simp only [Except.ok.injEq] at hok
        subst hok
        show (100 : Int) - bw ≠ -1
        omega
      · rw [if_neg h1] at hok
        by_cases h2 : bw = 0
        · rw [if_pos h2] at hok
          simp at hok
        · rw [if_neg h2] at hok
          simp only [Except.ok.injEq] at hok
          subst hok
          exact h1

/-- Witness for C9 (amended): status text "-1 frei" with a 35% bar takes
Branch A and yields `{free := 65, active := 35}`, whose `free` is not -1. -/
theorem c9_sentinel_amended_witness :
    crawl_webclimber ⟨some "-1 frei", some (some "width:35%")⟩ =
      .ok { free := 65, active := 35 }
    ∧ ({ free := 65, active := 35 } : CrawlResult).free ≠ -1 := by
  have h1 := c9_sentinel_amended.1 ⟨some "-1 frei", some (some "width:35%")⟩
    "-1 frei" "width:35%" ["frei".toList] 35 rfl (by decide) rfl (by decide)
  have h2 := c9_sentinel_amended.2 ⟨some "-1 frei", some (some "width:35%")⟩
    { free := 65, active := 35 } "-1 frei" "width:35%" 35 rfl rfl
    (by decide) (by decide) (by simpa using h1)
  exact ⟨by simpa using h1, h2⟩

/-- Counterexample for C2: webclimber Branch B with status "40 frei" and a
90% bar computes `total = (40 // 90) * 100 = 0` and returns the valid
(non-error) output `{free := 40, active := -40}`, whose `active` is
negative. -/
theorem c2_nonneg_counterexample :
    crawl_webclimber ⟨some "40 frei", some (some "width:90%")⟩ =
      .ok { free := 40, active := -40 }
    ∧ ¬(0 ≤ ({ free := 40, active := -40 } : CrawlResult).active) :=
  ⟨by decide, by decide⟩

/-- C2 (amended): valid outputs satisfy `free ≥ 0 ∧ active ≥ 0` under
input-range conditions the code itself does not enforce: for boulderado,
both parsed markup counts are nonnegative; for webclimber, the parsed bar
width lies in `[0, 100]` and, when Branch B is taken, `free_slots` is
nonnegative and divisible by the bar width.  Without these conditions the
claim is false (see the counterexample). -/
theorem c2_nonneg_amended :
    (∀ (page : BoulderadoPage) (r : CrawlResult) (ta tf : String) (a f : Int),
        page.actDiv = some (some ta) → page.freeDiv = some (some tf) →
        pyIntList ta.toList = some a → pyIntList tf.toList = some f →
        0 ≤ a → 0 ≤ f →
        crawl_boulderado page = .ok r → 0 ≤ r.free ∧ 0 ≤ r.active)
    ∧ (∀ (wp : WebclimberPage) (r : CrawlResult) (st style : String) (bw : Int),
        wp.statusText = some st → wp.barStyle = some (some style) →
        barWidthOf style = .ok bw →
        0 ≤ bw → bw ≤ 100 →
        (∀ fs : Int, freeSlotsOf st = .ok fs → fs ≠ -1 → 0 ≤ fs ∧ bw ∣ fs) →
        crawl_webclimber wp = .ok r → 0 ≤ r.free ∧ 0 ≤ r.active) := by
  constructor
  · intro page r ta tf a f hact hfree hpa hpf ha hf hok
    have hcomp : crawl_boulderado page = .ok { free := f, active := a } := by
      simp only [crawl_boulderado, extractCount, hact, hfree, hpa, hpf]
    rw [hcomp] at hok
    simp only [Except.ok.injEq] at hok
    subst hok
    exact ⟨hf, ha⟩
  · intro wp r st style bw hst hstyle hbw hbw0 hbw100 hB hok
    simp only [crawl_webclimber, hst, hstyle, hbw] at hok
    cases hfs : freeSlotsOf st with
    | error e =>
      rw [hfs] at hok
      exact Except.noConfusion hok
    | ok fs =>
      simp only [hfs] at hok
      by_cases h1 : fs = -1
      · rw [if_pos h1] at hok
        simp only [Except.ok.injEq] at hok
        subst hok
        constructor
        · show (0 : Int) ≤ 100 - bw
          omega
        · show (0 : Int) ≤ 100 - (100 - bw)
          omega
      · rw [if_neg h1] at hok
        by_cases h2 : bw = 0
        · rw [if_pos h2] at hok
          simp at hok
        · rw [if_neg h2] at hok
          simp only [Except.ok.injEq] at hok
          subst hok
          obtain ⟨hfs0, hdvd⟩ := hB fs hfs h1
          refine ⟨hfs0, ?_⟩
          show (0 : Int) ≤ fs.fdiv bw * 100 - fs
          rw [Int.fdiv_eq_ediv _ hbw0]
          have hq0 : 0 ≤ fs / bw := Int.ediv_nonneg hfs0 hbw0
          have hcancel : fs / bw * bw = fs := Int.ediv_mul_cancel hdvd
          nlinarith [mul_nonneg hq0 (show (0 : Int) ≤ 100 - bw by omega)]

/-- Witness for C2 (amended): the boulderado 12/8 page and the webclimber
"40 frei" / 40% page both satisfy the hypotheses and yield nonnegative
outputs. -/
theorem c2_nonneg_amended_witness :
    (0 ≤ ({ free := 8, active := 12 } : CrawlResult).free
      ∧ 0 ≤ ({ free := 8, active := 12 } : CrawlResult).active)
    ∧ (0 ≤ ({ free := 40, active := 60 } : CrawlResult).free
      ∧ 0 ≤ ({ free := 40, active := 60 } : CrawlResult).active) :=
  ⟨c2_nonneg_amended.1 ⟨some (some "12"), some (some "8")⟩ { free := 8, active := 12 }
      "12" "8" 12 8 rfl rfl (by decide) (by decide) (by decide) (by decide) (by decide),
   c2_nonneg_amended.2 ⟨some "40 frei", some (some "width:40%")⟩ { free := 40, active := 60 }
      "40 frei" "width:40%" 40 rfl rfl (by decide) (by decide) (by decide)
      (by
        intro fs hfs hne
        rw [show freeSlotsOf "40 frei" = Except.ok 40 from by decide] at hfs
        injection hfs with h
        subst h
        exact ⟨by decide, by decide⟩)
      (by decide)⟩

/-- C10: the width-value handling of line 55 strips whitespace and then
unconditionally removes the final character before `int()` parsing: a
value of the shape `⟨ws⟩⟨digits⟩%⟨ws⟩` has its integer body recovered
exactly, while a bare all-digit value of length at least 2 silently parses
with its last digit dropped instead of raising an error. -/
theorem c10_width_parsing :
    (∀ (p q b : List Char),
        (∀ c ∈ p, c.isWhitespace = true) → (∀ c ∈ q, c.isWhitespace = true) →
        b ≠ [] → b.all Char.isDigit = true →
        widthValueToInt (p ++ b ++ ['%'] ++ q) = some (Int.ofNat (digitsToNat b)))
    ∧ (∀ b : List Char, 2 ≤ b.length → b.all Char.isDigit = true →
        widthValueToInt b = some (Int.ofNat (digitsToNat b.dropLast))) := by
  constructor
  · intro p q b hp hq hne hdig
    obtain ⟨c, cs, rfl⟩ : ∃ c cs, b = c :: cs := by
      cases b with
      | nil => exact absurd rfl hne
      | cons c cs => exact ⟨c, cs, rfl⟩
    have hc : c.isDigit = true := by
      simp only [List.all_cons, Bool.and_eq_true] at hdig
      exact hdig.1
    have hstrip : stripChars (p ++ (c :: cs) ++ ['%'] ++ q) = (c :: cs) ++ ['%'] := by
      unfold stripChars
      have e1 : p ++ (c :: cs) ++ ['%'] ++ q = p ++ (c :: (cs ++ '%' :: q)) := by simp
      rw [e1, dropWhile_ws_append p _ hp,
        List.dropWhile_cons_of_neg (by simp [ws_false_of_digit hc])]
      have e3 : (c :: (cs ++ '%' :: q)).reverse = q.reverse ++ ('%' :: (cs.reverse ++ [c])) := by
        simp
      rw [e3, dropWhile_ws_append q.reverse _ (by
          intro d hd
          exact hq d (by simpa using hd)),
        List.dropWhile_cons_of_neg (by decide)]
      simp
    unfold widthValueToInt
    rw [hstrip, List.dropLast_concat]
    exact pyIntList_all_digits hne hdig
  · intro b hlen hdig
    unfold widthValueToInt
    rw [stripChars_all_digits hdig]
    have hlast := List.length_dropLast b
    have hne2 : b.dropLast ≠ [] := by
      intro h
      rw [h] at hlast
      simp at hlast
      omega
    have hdig2 : b.dropLast.all Char.isDigit = true := by
      rw [List.all_eq_true] at hdig ⊢
      intro c hc
      exact hdig c (List.dropLast_subset b hc)
    exact pyIntList_all_digits hne2 hdig2

/-- Witness for C10: `" 40% "` parses to 40 exactly; the bare value
`"400"` silently parses to 40 (last digit dropped). -/
theorem c10_width_parsing_witness :
    widthValueToInt ([' '] ++ ['4', '0'] ++ ['%'] ++ [' ']) = some (Int.ofNat (digitsToNat ['4', '0']))
    ∧ widthValueToInt ['4', '0', '0'] = some (Int.ofNat (digitsToNat (['4', '0', '0']).dropLast)) :=
  ⟨c10_width_parsing.1 [' '] [' '] ['4', '0'] (by decide) (by decide) (by decide) (by decide),
   c10_width_parsing.2 ['4', '0', '0'] (by decide) (by decide)⟩
